import Mathlib

/-!
# GitInsight — Hybrid Evaluation Pipeline: shallow embedding and verification

This file embeds the core of the GitInsight repository-evaluation pipeline:
the rule-based evaluation engine, the hybrid scorer, the evaluation cache,
the pipeline coordinator, and the frontend submission/validation logic
(`frontend/app/analyze/page.tsx`, `frontend/components/RepositoryInput.tsx`,
`frontend/components/LoadingState.tsx`), together with theorems settling the
frozen claims about them.

Text is modelled as `List Char`; machine integers do not occur (all scores are
small integers, all lengths natural numbers).
-/

/-! ## Text helpers -/

/-- Is `c` one of the whitespace characters removed by JavaScript
`String.prototype.trim` (the ASCII whitespace characters plus the common
Unicode ones: NBSP and the BOM; other rare Unicode space separators are not
produced by the inputs this development evaluates). -/
def jsWhitespace (c : Char) : Bool :=
  c = ' ' || c = '\t' || c = '\n' || c = '\r' ||
  c = '\x0b' || c = '\x0c' || c = ' ' || c = '﻿'

/-- JavaScript `String.prototype.trim`: strip whitespace from both ends. -/
def jsTrim (s : List Char) : List Char :=
  ((s.dropWhile jsWhitespace).reverse.dropWhile jsWhitespace).reverse

/-- Does `pat` occur as a contiguous substring of `s`? -/
def containsSub (pat s : List Char) : Bool :=
  s.tails.any (fun t => pat.isPrefixOf t)

/-- Case-insensitive substring check: lowercase `s` and look for the
(lowercase) pattern `pat`. -/
def containsCI (pat s : List Char) : Bool :=
  containsSub pat (s.map Char.toLower)

/-! ## Data model (`RepositoryData`, spec §3) -/

/-- One entry of the repository file tree: the relative path split into
segments, whether it is a directory, and the byte size (files). -/
structure FileEntry where
  segments : List (List Char)
  isDir : Bool
  size : Nat
deriving DecidableEq, Repr

/-- The immutable repository snapshot handed to the pipeline by the
ingestion collaborator. -/
structure RepositoryData where
  identity : String
  readmeText : Option (List Char)
  fileTree : List FileEntry
  rootEntryCount : Nat
  maxNestingDepth : Nat
  detectedLanguages : List (String × Nat)
deriving DecidableEq, Repr

/-! ## RuleEngine — Documentation evaluation

Modelled from the spec: the rule-engine implementation itself is not in the
repository (only its rule tables in the `Evaluation Rules` document and the
spec §4.1 describe it); the definitions below follow those tables.
-/

/-- Section-detection patterns for the Installation section
(case-insensitive, stored lowercase). -/
def installationPatterns : List (List Char) :=
  ["## install", "## getting started", "## setup", "## quick start",
   "## prerequisites"].map String.toList

/-- Section-detection patterns for the Usage section. -/
def usagePatterns : List (List Char) :=
  ["## usage", "## how to use", "## examples", "## running"].map String.toList

/-- Section-detection patterns for the Features section. -/
def featuresPatterns : List (List Char) :=
  ["## features", "## key features", "## highlights",
   "## what it does"].map String.toList

/-- Section-detection patterns for the License section. -/
def licensePatterns : List (List Char) :=
  ["## license", "## licensing"].map String.toList

/-- Is one of the patterns present (case-insensitively) in the README? -/
def sectionPresent (readme : List Char) (pats : List (List Char)) : Bool :=
  pats.any (fun p => containsCI p readme)

/-- How many of the four key sections (Installation / Usage / Features /
License) are detected in the README. -/
def docSectionCount (readme : List Char) : Nat :=
  (if sectionPresent readme installationPatterns then 1 else 0) +
  (if sectionPresent readme usagePatterns then 1 else 0) +
  (if sectionPresent readme featuresPatterns then 1 else 0) +
  (if sectionPresent readme licensePatterns then 1 else 0)

/-- Modelled from the spec: documentation score — 0 with no README; else
base 3, +2 if length ≥ 300, +2 more if ≥ 800, +1 per detected key section up
to +3, capped at 10. -/
def documentationScore (d : RepositoryData) : ℤ :=
  match d.readmeText with
  | none => 0
  | some r =>
    min 10 (3 + (if 300 ≤ r.length then 2 else 0)
              + (if 800 ≤ r.length then 2 else 0)
              + min 3 (docSectionCount r : ℤ))

/-- Modelled from the spec: documentation issues, one per missing condition,
in the fixed order missing-README, too-short README, then each missing
section. -/
def documentationIssues (d : RepositoryData) : List String :=
  match d.readmeText with
  | none => ["README is missing"]
  | some r =>
    (if r.length < 300
      then ["README is too short (less than 300 characters)"] else []) ++
    (if sectionPresent r installationPatterns then []
      else ["README is missing an Installation section"]) ++
    (if sectionPresent r usagePatterns then []
      else ["README is missing a Usage section"]) ++
    (if sectionPresent r featuresPatterns then []
      else ["README is missing a Features section"]) ++
    (if sectionPresent r licensePatterns then []
      else ["README is missing a License section"])

/-! ## RuleEngine — Structure evaluation -/

/-- The fixed recognized-source-directory name set (lowercase). -/
def recognizedSourceDirs : List (List Char) :=
  ["src", "source", "lib", "app", "backend", "frontend", "core", "pkg",
   "packages", "modules", "components"].map String.toList

/-- Does some path segment, at any tree level, match a recognized source
directory name (case-insensitively)? -/
def hasRecognizedSourceDir (d : RepositoryData) : Bool :=
  d.fileTree.any (fun e =>
    e.segments.any (fun seg => recognizedSourceDirs.contains (seg.map Char.toLower)))

/-- Modelled from the spec: raw structure score before clamping — base 5;
−3 without a recognized source directory, +4 with one; +3 if the root-level
entry count is ≤ 10; −2 for nesting depth > 5 with no recognized source
directory. -/
def structureScoreRaw (d : RepositoryData) : ℤ :=
  5 + (if hasRecognizedSourceDir d then 4 else -3)
    + (if d.rootEntryCount ≤ 10 then 3 else 0)
    + (if 5 < d.maxNestingDepth ∧ ¬hasRecognizedSourceDir d then -2 else 0)

/-- Modelled from the spec: the returned structure score is the raw score
clamped to [0,10]. -/
def structureScore (d : RepositoryData) : ℤ :=
  max 0 (min 10 (structureScoreRaw d))

/-- Modelled from the spec: structure issues in fixed order — no source
directory, root overcrowding (with the literal count), deep nesting without
structure. -/
def structureIssues (d : RepositoryData) : List String :=
  (if hasRecognizedSourceDir d then []
    else ["No recognizable source directory found (e.g., src/, app/, backend/)"]) ++
  (if d.rootEntryCount ≤ 10 then []
    else ["Too many files in repository root (" ++ toString d.rootEntryCount ++
          " files, recommended ≤ 10)"]) ++
  (if 5 < d.maxNestingDepth ∧ ¬hasRecognizedSourceDir d
    then ["Deep file nesting detected without clear directory structure"] else [])

/-! ## RuleEngine — Configuration evaluation -/

/-- The fixed license file-name list. -/
def licenseFileNames : List (List Char) :=
  ["LICENSE", "LICENSE.md", "LICENSE.txt", "COPYING", "COPYING.md"].map String.toList

/-- The fixed multi-ecosystem dependency-manifest file-name list. -/
def dependencyFileNames : List (List Char) :=
  ["requirements.txt", "pyproject.toml", "setup.py", "setup.cfg",
   "package.json", "package-lock.json", "yarn.lock", "pnpm-lock.yaml",
   "go.mod", "Cargo.toml", "Gemfile", "build.gradle", "pom.xml",
   "composer.json", "mix.exs", "project.clj"].map String.toList

/-- Is a file whose name (last path segment) is in `names` present in the
tree? -/
def fileNamedPresent (d : RepositoryData) (names : List (List Char)) : Bool :=
  d.fileTree.any (fun e =>
    !e.isDir && (match e.segments.getLast? with
                 | some n => names.contains n
                 | none => false))

/-- Is a `.gitignore` file present? -/
def gitignorePresent (d : RepositoryData) : Bool :=
  fileNamedPresent d [".gitignore".toList]

/-- Modelled from the spec: configuration score — +3 for `.gitignore`,
+3 for a license file, +4 for a dependency manifest. -/
def configurationScore (d : RepositoryData) : ℤ :=
  (if gitignorePresent d then 3 else 0) +
  (if fileNamedPresent d licenseFileNames then 3 else 0) +
  (if fileNamedPresent d dependencyFileNames then 4 else 0)

/-- Modelled from the spec: configuration issues, one per absent category,
in fixed order. -/
def configurationIssues (d : RepositoryData) : List String :=
  (if gitignorePresent d then [] else ["No .gitignore file found"]) ++
  (if fileNamedPresent d licenseFileNames then [] else ["No LICENSE file found"]) ++
  (if fileNamedPresent d dependencyFileNames then []
    else ["No dependency file found (e.g., requirements.txt, package.json)"])

/-! ## RuleEngine — Completeness evaluation -/

/-- Is a non-empty README present? -/
def readmeNonEmpty (d : RepositoryData) : Bool :=
  match d.readmeText with
  | some r => !r.isEmpty
  | none => false

/-- Number of top-level directory entries in the file tree. -/
def topLevelDirCount (d : RepositoryData) : Nat :=
  d.fileTree.countP (fun e => e.isDir && e.segments.length = 1)

/-- How many of the four completeness signals hold: non-empty README,
license file, dependency manifest, at least two top-level directories. -/
def completenessCount (d : RepositoryData) : Nat :=
  (if readmeNonEmpty d then 1 else 0) +
  (if fileNamedPresent d licenseFileNames then 1 else 0) +
  (if fileNamedPresent d dependencyFileNames then 1 else 0) +
  (if 2 ≤ topLevelDirCount d then 1 else 0)

/-- Modelled from the spec: completeness score = round(count_true × 2.5),
rounding half up as in the rule table (0→0, 1→3, 2→5, 3→8, 4→10). -/
def completenessScore (d : RepositoryData) : ℤ :=
  round ((completenessCount d : ℚ) * 5 / 2)

/-- Modelled from the spec: completeness issues, one per false signal,
in fixed order. -/
def completenessIssues (d : RepositoryData) : List String :=
  (if readmeNonEmpty d then []
    else ["Project appears incomplete: README is missing"]) ++
  (if fileNamedPresent d licenseFileNames then []
    else ["Project appears incomplete: LICENSE is missing"]) ++
  (if fileNamedPresent d dependencyFileNames then []
    else ["Project appears incomplete: no dependency management file"]) ++
  (if 2 ≤ topLevelDirCount d then []
    else ["Project appears incomplete: lacks directory organization"])

/-! ## RuleEngine — whole-result evaluation -/

/-- A section score in [0,10] with its ordered issue list. -/
structure SectionScore where
  score : ℤ
  issues : List String
deriving DecidableEq, Repr

/-- The four section results of the rule engine, never partial. -/
structure RuleEvaluationResult where
  documentation : SectionScore
  structureSection : SectionScore
  configuration : SectionScore
  completeness : SectionScore
deriving DecidableEq, Repr

namespace RuleEngine

/-- Modelled from the spec: `RuleEngine.evaluate` — the pure, total rule
evaluation assembling the four section scores with their issue lists. -/
def evaluate (d : RepositoryData) : RuleEvaluationResult :=
  { documentation := ⟨documentationScore d, documentationIssues d⟩
    structureSection := ⟨structureScore d, structureIssues d⟩
    configuration := ⟨configurationScore d, configurationIssues d⟩
    completeness := ⟨completenessScore d, completenessIssues d⟩ }

end RuleEngine

/-! ## AIInsightOrchestrator result model

Modelled from the spec: the orchestrator implementation is not in the
repository; only its result shape matters to the scorer. Each insight is
either `ok` with a controlled-vocabulary judgment (the only structured field
the scorer consumes — the model never emits numeric scores) or `degraded`.
-/

/-- The controlled vocabulary an insight's structured content is mapped
through before it may influence the score. -/
inductive Judgment where
  | poor
  | fair
  | good
  | excellent
deriving DecidableEq, Repr

/-- Status of one insight: decoded content, or permanently failed. -/
inductive InsightStatus where
  | ok (j : Judgment)
  | degraded
deriving DecidableEq, Repr

/-- The three independent insight records. -/
structure AIInsightResult where
  documentationQuality : InsightStatus
  codeClarity : InsightStatus
  techStackSummary : InsightStatus
deriving DecidableEq, Repr

/-- Is this insight degraded? -/
def InsightStatus.isDegraded : InsightStatus → Bool
  | .ok _ => false
  | .degraded => true

namespace HybridScorer

/-- Modelled from the spec: the fixed adjustment table
poor → −1, fair → 0, good → +1/2, excellent → +1. -/
def judgmentAdjustment : Judgment → ℚ
  | .poor => -1
  | .fair => 0
  | .good => 1 / 2
  | .excellent => 1

/-- Adjustment contributed by one insight: its judgment's table value when
`ok`, 0 when degraded. -/
def insightAdjustment : InsightStatus → ℚ
  | .ok j => judgmentAdjustment j
  | .degraded => 0

/-- Sum of the three per-insight adjustments. -/
def aiAdjustmentRaw (ai : AIInsightResult) : ℚ :=
  insightAdjustment ai.documentationQuality +
  insightAdjustment ai.codeClarity +
  insightAdjustment ai.techStackSummary

/-- Modelled from the spec: the fixed clamp range for the summed AI
adjustment (±3, the extreme reachable by the per-insight table). -/
def adjustmentBound : ℚ := 3

/-- The summed adjustment clamped to the fixed range. -/
def aiAdjustmentScaled (ai : AIInsightResult) : ℚ :=
  max (-adjustmentBound) (min adjustmentBound (aiAdjustmentRaw ai))

/-- The equal-weight (25% each) rule composite in [0,10]. -/
def ruleComposite (rr : RuleEvaluationResult) : ℚ :=
  ((rr.documentation.score : ℚ) + (rr.structureSection.score : ℚ) +
   (rr.configuration.score : ℚ) + (rr.completeness.score : ℚ)) / 4

/-- Names of the degraded insights, in the fixed field order. -/
def degradedInsights (ai : AIInsightResult) : List String :=
  (if ai.documentationQuality.isDegraded then ["documentationQuality"] else []) ++
  (if ai.codeClarity.isDegraded then ["codeClarity"] else []) ++
  (if ai.techStackSummary.isDegraded then ["techStackSummary"] else [])

/-- Modelled from the spec: `HybridScorer.combine` — the deterministic
combination `round(10 × ruleComposite × weightRule + aiAdjustmentScaled)`
clamped to [0,100], paired with the degraded-insight names. The rule weight
is the spec's tunable parameter. -/
def combine (weightRule : ℚ) (rr : RuleEvaluationResult) (ai : AIInsightResult) :
    ℤ × List String :=
  (max 0 (min 100 (round (10 * ruleComposite rr * weightRule + aiAdjustmentScaled ai))),
   degradedInsights ai)

end HybridScorer

/-! ## FinalReport, EvaluationCache and PipelineCoordinator

Modelled from the spec: the coordinator and cache implementations are not in
the repository; the definitions follow spec §§4.4–4.5 (cache keyed by
identity, least-recently-used eviction at a fixed capacity, fixed
time-to-live, cache hit short-circuiting the whole pipeline). The narrative
report fields are produced by the external renderer collaborator and are
modelled as empty placeholders — no claim depends on them.
-/

/-- The immutable evaluation output. -/
structure FinalReport where
  finalScore : ℤ
  documentationScore : ℤ
  structureScore : ℤ
  configurationScore : ℤ
  completenessScore : ℤ
  summary : String
  strengths : List String
  improvements : List String
  resumeBullets : List String
  degradedInsights : List String
deriving DecidableEq, Repr

/-- One cache slot: identity key, cached report, computation time. -/
structure CacheEntry where
  identity : String
  report : FinalReport
  computedAt : Nat
deriving DecidableEq, Repr

/-- The cache state: entries in recency order, most recently used first
(so the least-recently-used entry is last). -/
structure EvaluationCache where
  entries : List CacheEntry
deriving DecidableEq, Repr

namespace EvaluationCache

/-- `get`: look the identity up; a fresh entry is returned and moved to the
front (it becomes the most recently used); an entry past its time-to-live is
a miss and is dropped. -/
def get (ttl now : Nat) (id : String) (c : List CacheEntry) :
    Option FinalReport × List CacheEntry :=
  match c.find? (fun e => e.identity == id) with
  | none => (none, c)
  | some e =>
    if now < e.computedAt + ttl then
      (some e.report, e :: c.filter (fun x => !(x.identity == id)))
    else
      (none, c.filter (fun x => !(x.identity == id)))

/-- `put`: insert (or refresh) the identity at the front; when already at
capacity, evict the least-recently-used entry (the last one). -/
def put (maxEntries now : Nat) (id : String) (r : FinalReport)
    (c : List CacheEntry) : List CacheEntry :=
  let without := c.filter (fun x => !(x.identity == id))
  let trimmed := if maxEntries ≤ without.length then without.dropLast else without
  ⟨id, r, now⟩ :: trimmed

end EvaluationCache

/-- The core's configuration surface (spec §6): overall per-evaluation
timeout, retry count per insight, cache time-to-live, cache max entries,
and the tunable rule weight of the hybrid formula. -/
structure PipelineConfig where
  overallTimeoutSeconds : Nat
  retryCount : Nat
  cacheTtlSeconds : Nat
  cacheMaxEntries : Nat
  weightRule : ℚ
deriving DecidableEq, Repr

/-- Modelled from the spec: the default configuration — 90 s overall
timeout, 2 retries per insight, 900 s cache time-to-live, 100 cache
entries; rule weight 1 (the tunable parameter's neutral value). -/
def defaultPipelineConfig : PipelineConfig :=
  ⟨90, 2, 900, 100, 1⟩

namespace PipelineCoordinator

/-- Build the `FinalReport` from the rule result and the (possibly
degraded) AI result; narrative fields are the renderer collaborator's and
are left empty. -/
def buildFinalReport (weightRule : ℚ) (rr : RuleEvaluationResult)
    (ai : AIInsightResult) : FinalReport :=
  { finalScore := (HybridScorer.combine weightRule rr ai).1
    documentationScore := rr.documentation.score
    structureScore := rr.structureSection.score
    configurationScore := rr.configuration.score
    completenessScore := rr.completeness.score
    summary := ""
    strengths := []
    improvements := []
    resumeBullets := []
    degradedInsights := (HybridScorer.combine weightRule rr ai).2 }

/-- Modelled from the spec: one coordinator run at time `now`. The cache is
consulted first; a hit short-circuits the pipeline (the returned flag
records whether RuleEngine/AIInsightOrchestrator were invoked). On a miss
the rule engine runs, the orchestrator's settled result `ai` is combined,
and the cache is populated before returning. -/
def run (cfg : PipelineConfig) (cache : EvaluationCache) (d : RepositoryData)
    (now : Nat) (ai : AIInsightResult) :
    FinalReport × EvaluationCache × Bool :=
  match EvaluationCache.get cfg.cacheTtlSeconds now d.identity cache.entries with
  | (some report, c₁) => (report, ⟨c₁⟩, false)
  | (none, c₁) =>
    let rr := RuleEngine.evaluate d
    let report := buildFinalReport cfg.weightRule rr ai
    (report, ⟨EvaluationCache.put cfg.cacheMaxEntries now d.identity report c₁⟩, true)

end PipelineCoordinator

/-! ## Frontend — analyze page state machine (`frontend/app/analyze/page.tsx`) -/

/-- The analyze page's application state machine. -/
inductive AppState where
  | IDLE
  | LOADING
  | SUCCESS
  | ERROR
deriving DecidableEq, Repr

/-- An error payload as stored by the page (`type`, `message`). -/
structure ErrorData where
  errType : String
  message : String
deriving DecidableEq, Repr

/-- The page's React state: the state-machine state, the report payload and
the error payload (the report body is abstracted to its final score and
section scores — the fields the page stores). -/
structure PageModel where
  state : AppState
  report : Option FinalReport
  error : Option ErrorData
deriving DecidableEq, Repr

/-- Frontend timeout in milliseconds (90 seconds to match the backend),
`FRONTEND_TIMEOUT_MS` in `analyze/page.tsx`. -/
def FRONTEND_TIMEOUT_MS : Nat := 90000

/-- The `LoadingState` component's default `timeoutMs` parameter
(`LoadingState.tsx`). -/
def loadingStateDefaultTimeoutMs : Nat := 90000

/-- The synchronous head of `handleAnalyze`: when the page is already
`LOADING` it returns at once (no state update, no request); otherwise it
clears report and error, enters `LOADING`, and issues exactly one request
to `/api/v1/analyze`. The boolean records whether a request was issued. -/
def handleAnalyzeStep (m : PageModel) : PageModel × Bool :=
  if m.state = AppState.LOADING then (m, false)
  else ({ state := AppState.LOADING, report := none, error := none }, true)

/-! ## Frontend — repository input validation
(`frontend/components/RepositoryInput.tsx`) -/

/-- A JavaScript `\w` character (ASCII word character). -/
def wordChar (c : Char) : Bool :=
  c.isAlpha || c.isDigit || c = '_'

/-- A character of the `[\w.-]` class used by the GitHub URL pattern. -/
def urlNameChar (c : Char) : Bool :=
  wordChar c || c = '.' || c = '-'

/-- Strip the `https?://` scheme required at the start of the pattern. -/
def afterScheme : List Char → Option (List Char)
  | 'h' :: 't' :: 't' :: 'p' :: rest =>
    match rest with
    | 's' :: ':' :: '/' :: '/' :: r => some r
    | ':' :: '/' :: '/' :: r => some r
    | _ => none
  | _ => none

/-- Strip the optional `www.` group. Deterministic stripping is faithful to
the regex: the following literal is `github.com/`, which does not start
with `www.`, so the optional group matches exactly when the text starts
with `www.`. -/
def afterWww (s : List Char) : List Char :=
  match s with
  | 'w' :: 'w' :: 'w' :: '.' :: r => r
  | _ => s

/-- `GITHUB_URL_PATTERN.test`: an unanchored-at-the-end match of
`^https?:\/\/(www\.)?github\.com\/[\w.-]+\/[\w.-]+`. Because `/` is not in
the `[\w.-]` class, the greedy owner run is the maximal class run and no
backtracking can change the outcome. -/
def matchesGithubUrl (s : List Char) : Bool :=
  match afterScheme s with
  | none => false
  | some r =>
    if "github.com/".toList.isPrefixOf (afterWww r) then
      let rest := (afterWww r).drop "github.com/".toList.length
      let owner := rest.takeWhile urlNameChar
      match rest.dropWhile urlNameChar with
      | '/' :: c :: _ => !owner.isEmpty && urlNameChar c
      | _ => false
    else false

/-- The outcome of one `handleSubmit` call: the `onSubmit` callback invoked
with a URL, or a validation error message set instead. -/
inductive SubmitAction where
  | submitted (url : List Char)
  | rejected (msg : String)
deriving DecidableEq, Repr

/-- `validateUrl`: false on an all-whitespace input, else the pattern test
on the trimmed input. -/
def validateUrl (input : List Char) : Bool :=
  if (jsTrim input).isEmpty then false
  else matchesGithubUrl (jsTrim input)

/-- `handleSubmit` of `RepositoryInput`: reject an empty trimmed input,
reject a trimmed input failing the GitHub URL pattern, otherwise invoke
`onSubmit` with the trimmed URL. -/
def handleSubmit (url : List Char) : SubmitAction :=
  if (jsTrim url).isEmpty then
    SubmitAction.rejected "Please enter a GitHub repository URL"
  else if !validateUrl url then
    SubmitAction.rejected
      "Please enter a valid GitHub repository URL (e.g., https://github.com/owner/repo)"
  else
    SubmitAction.submitted (jsTrim url)

/-! ## Helper lemmas -/

/-- `List.any` is invariant under permutation. -/
theorem perm_any_eq {α : Type} {l₁ l₂ : List α} (h : l₁.Perm l₂) (f : α → Bool) :
    l₁.any f = l₂.any f := by
  rw [Bool.eq_iff_iff]
  simp only [List.any_eq_true]
  exact ⟨fun ⟨x, hx, hf⟩ => ⟨x, h.mem_iff.mp hx, hf⟩,
         fun ⟨x, hx, hf⟩ => ⟨x, h.mem_iff.mpr hx, hf⟩⟩

/-! ## Claims about the rule engine's section scores -/

/-- C2: for every `RepositoryData` the completeness score equals
round(count_true × 2.5) over the four boolean signals, and the rounding
yields the table 0→0, 1→3, 2→5, 3→8, 4→10 — in particular one true signal
yields 3, not 2. -/
theorem completeness_score_round_table (d : RepositoryData) :
    completenessScore d = round ((completenessCount d : ℚ) * 5 / 2) ∧
    completenessCount d ≤ 4 ∧
    (completenessCount d = 0 → completenessScore d = 0) ∧
    (completenessCount d = 1 → completenessScore d = 3) ∧
    (completenessCount d = 2 → completenessScore d = 5) ∧
    (completenessCount d = 3 → completenessScore d = 8) ∧
    (completenessCount d = 4 → completenessScore d = 10) := by
  refine ⟨rfl, ?_, ?_, ?_, ?_, ?_, ?_⟩
  · unfold completenessCount
    split <;> split <;> split <;> split <;> norm_num
  all_goals intro h
  all_goals unfold completenessScore
  all_goals rw [h]
  all_goals norm_num [round_eq]

/-- C2 witness: a repository whose only signal is a non-empty README has
exactly one true signal and completeness score 3. -/
theorem completeness_score_round_table_witness :
    completenessCount ⟨"w", some ['h', 'i'], [], 0, 0, []⟩ = 1 ∧
    completenessScore ⟨"w", some ['h', 'i'], [], 0, 0, []⟩ = 3 :=
  ⟨by decide, (completeness_score_round_table _).2.2.2.1 (by decide)⟩

/-- C3: the documentation score is 0 with no README; otherwise base 3,
+2 for length ≥ 300, +2 more for ≥ 800, +1 per detected key section up to 3,
capped at 10; a README of exactly 300 characters earns the first tier only,
one of exactly 800 characters earns both. -/
theorem documentation_score_spec (d : RepositoryData) :
    (d.readmeText = none → documentationScore d = 0) ∧
    (∀ r, d.readmeText = some r →
      documentationScore d =
        min 10 (3 + (if 300 ≤ r.length then 2 else 0)
                  + (if 800 ≤ r.length then 2 else 0)
                  + min 3 (docSectionCount r : ℤ)) ∧
      (r.length = 300 →
        documentationScore d = min 10 (3 + 2 + 0 + min 3 (docSectionCount r : ℤ))) ∧
      (r.length = 800 →
        documentationScore d = min 10 (3 + 2 + 2 + min 3 (docSectionCount r : ℤ)))) := by
  constructor
  · intro h
    simp [documentationScore, h]
  · intro r h
    refine ⟨by simp [documentationScore, h], ?_, ?_⟩
    · intro hl
      simp only [documentationScore, h]
      rw [if_pos (by omega), if_neg (by omega)]
    · intro hl
      simp only [documentationScore, h]
      rw [if_pos (by omega), if_pos (by omega)]

/-- C3 witness: a README of exactly 300 characters scores the ≥300 tier but
not the ≥800 tier. -/
theorem documentation_score_spec_witness :
    documentationScore ⟨"w", some (List.replicate 300 'a'), [], 0, 0, []⟩ =
      min 10 (3 + 2 + 0 + min 3 (docSectionCount (List.replicate 300 'a') : ℤ)) :=
  ((documentation_score_spec _).2 (List.replicate 300 'a') rfl).2.1
    (List.length_replicate 300 'a')

/-- C4: the raw structure score always lies in [0,12] and the returned
score is the raw score clamped to [0,10]; with a recognized source
directory and at most 10 root entries the raw score is 5+4+3 = 12 and the
returned score 10. -/
theorem structure_score_bounds (d : RepositoryData) :
    0 ≤ structureScoreRaw d ∧ structureScoreRaw d ≤ 12 ∧
    structureScore d = max 0 (min 10 (structureScoreRaw d)) ∧
    (hasRecognizedSourceDir d = true → d.rootEntryCount ≤ 10 →
      structureScoreRaw d = 12 ∧ structureScore d = 10) := by
  refine ⟨?_, ?_, rfl, ?_⟩
  · unfold structureScoreRaw
    split <;> split <;> split <;> omega
  · unfold structureScoreRaw
    split <;> split <;> split <;> omega
  · intro h1 h2
    have hraw : structureScoreRaw d = 12 := by
      unfold structureScoreRaw
      rw [if_pos h1, if_pos h2, if_neg (by simp [h1])]
      norm_num
    exact ⟨hraw, by unfold structureScore; rw [hraw]; norm_num⟩

/-- C4 witness: a repository with a `src/` directory and 5 root entries has
raw structure score 12 and returned score 10. -/
theorem structure_score_bounds_witness :
    structureScoreRaw ⟨"w", none, [⟨["src".toList], true, 0⟩], 5, 2, []⟩ = 12 ∧
    structureScore ⟨"w", none, [⟨["src".toList], true, 0⟩], 5, 2, []⟩ = 10 :=
  (structure_score_bounds _).2.2.2 (by decide) (by decide)

/-! ## Claims about configuration constants and the frontend -/

/-- C8: the overall per-evaluation timeout is a configuration field with
default 90 seconds, and the frontend's `FRONTEND_TIMEOUT_MS` (used both for
the request abort deadline and as the `LoadingState` timeout) and the
`LoadingState` default equal the same 90000 ms. -/
theorem timeout_defaults_consistent :
    defaultPipelineConfig.overallTimeoutSeconds = 90 ∧
    FRONTEND_TIMEOUT_MS = 1000 * defaultPipelineConfig.overallTimeoutSeconds ∧
    loadingStateDefaultTimeoutMs = FRONTEND_TIMEOUT_MS := by
  refine ⟨rfl, by decide, rfl⟩

/-- C9: invoking the analyze page's submission handler while the state is
`LOADING` is a no-op — the page state (state, report, error) is unchanged
and no request is issued. -/
theorem handle_analyze_noop_when_loading (m : PageModel)
    (h : m.state = AppState.LOADING) :
    handleAnalyzeStep m = (m, false) := by
  simp [handleAnalyzeStep, h]

/-- C9 witness: the no-op at a concrete loading page state. -/
theorem handle_analyze_noop_when_loading_witness :
    handleAnalyzeStep ⟨AppState.LOADING, none, none⟩ =
      (⟨AppState.LOADING, none, none⟩, false) :=
  handle_analyze_noop_when_loading _ rfl

/-- C10: `RepositoryInput` invokes `onSubmit` only with the trimmed input
and only when the trimmed input matches the GitHub URL pattern; every input
whose trimmed form is empty or fails the pattern sets a validation error
message and never reaches `onSubmit`. -/
theorem repository_input_submit_spec (url : List Char) :
    (∀ t, handleSubmit url = SubmitAction.submitted t →
      t = jsTrim url ∧ matchesGithubUrl (jsTrim url) = true) ∧
    ((jsTrim url).isEmpty = true ∨ matchesGithubUrl (jsTrim url) = false →
      ∃ msg, handleSubmit url = SubmitAction.rejected msg) := by
  constructor
  · intro t h
    unfold handleSubmit at h
    by_cases h1 : (jsTrim url).isEmpty = true
    · simp [h1] at h
    · by_cases h2 : validateUrl url = true
      · simp only [h1, h2, if_false, Bool.not_true, if_neg, ite_false] at h
        simp [h1, h2] at h
        subst h
        have hm : matchesGithubUrl (jsTrim url) = true := by
          unfold validateUrl at h2
          rwa [if_neg h1] at h2
        exact ⟨rfl, hm⟩
      · simp [h1, h2] at h
  · intro h
    by_cases h1 : (jsTrim url).isEmpty = true
    · exact ⟨"Please enter a GitHub repository URL",
        by unfold handleSubmit; rw [if_pos h1]⟩
    · have h2 : validateUrl url = false := by
        rcases h with h | h
        · exact absurd h h1
        · unfold validateUrl
          rw [if_neg h1]
          exact h
      exact ⟨"Please enter a valid GitHub repository URL (e.g., https://github.com/owner/repo)",
        by unfold handleSubmit; rw [if_neg h1, if_pos (by simp [h2])]⟩

/-- C10 witness: the input `"hello"` fails the GitHub URL pattern and is
rejected with a validation message. -/
theorem repository_input_submit_spec_witness :
    matchesGithubUrl (jsTrim "hello".toList) = false ∧
    ∃ msg, handleSubmit "hello".toList = SubmitAction.rejected msg :=
  ⟨by decide, (repository_input_submit_spec "hello".toList).2 (Or.inr (by decide))⟩

/-! ## Claim about the hybrid scorer -/

/-- C1: `HybridScorer.combine` returns
round(10 × ruleComposite × weightRule + aiAdjustmentScaled) clamped to
[0,100] with the equal-weight (25% each) rule composite, and when all three
insights are degraded the AI adjustment is exactly 0 and `degradedInsights`
lists exactly the three insight names. -/
theorem hybrid_combine_spec (w : ℚ) (rr : RuleEvaluationResult)
    (ai : AIInsightResult) :
    (HybridScorer.combine w rr ai).1 =
      max 0 (min 100 (round (10 *
        ((rr.documentation.score : ℚ) / 4 + (rr.structureSection.score : ℚ) / 4 +
         (rr.configuration.score : ℚ) / 4 + (rr.completeness.score : ℚ) / 4) * w +
        HybridScorer.aiAdjustmentScaled ai))) ∧
    (ai.documentationQuality = InsightStatus.degraded →
     ai.codeClarity = InsightStatus.degraded →
     ai.techStackSummary = InsightStatus.degraded →
      HybridScorer.aiAdjustmentScaled ai = 0 ∧
      (HybridScorer.combine w rr ai).2 =
        ["documentationQuality", "codeClarity", "techStackSummary"]) := by
  constructor
  · have hc : HybridScorer.ruleComposite rr =
        (rr.documentation.score : ℚ) / 4 + (rr.structureSection.score : ℚ) / 4 +
        (rr.configuration.score : ℚ) / 4 + (rr.completeness.score : ℚ) / 4 := by
      unfold HybridScorer.ruleComposite
      ring
    simp only [HybridScorer.combine, hc]
  · intro h1 h2 h3
    have hadj : HybridScorer.aiAdjustmentScaled ai = 0 := by
      simp [HybridScorer.aiAdjustmentScaled, HybridScorer.aiAdjustmentRaw,
        HybridScorer.adjustmentBound, h1, h2, h3, HybridScorer.insightAdjustment]
    refine ⟨hadj, ?_⟩
    simp [HybridScorer.combine, HybridScorer.degradedInsights, h1, h2, h3,
      InsightStatus.isDegraded]

/-- C1 witness: with all three insights degraded the adjustment is 0 and
all three names are reported. -/
theorem hybrid_combine_spec_witness :
    HybridScorer.aiAdjustmentScaled
      ⟨InsightStatus.degraded, InsightStatus.degraded, InsightStatus.degraded⟩ = 0 ∧
    (HybridScorer.combine 1 ⟨⟨8, []⟩, ⟨8, []⟩, ⟨8, []⟩, ⟨8, []⟩⟩
      ⟨InsightStatus.degraded, InsightStatus.degraded, InsightStatus.degraded⟩).2 =
      ["documentationQuality", "codeClarity", "techStackSummary"] :=
  (hybrid_combine_spec 1 ⟨⟨8, []⟩, ⟨8, []⟩, ⟨8, []⟩, ⟨8, []⟩⟩
    ⟨InsightStatus.degraded, InsightStatus.degraded, InsightStatus.degraded⟩).2
    rfl rfl rfl

/-! ## Claim about rule-engine determinism and order-independence -/

/-- The rule evaluation depends on `RepositoryData` only through the README
text, the scalar tree statistics, and order-insensitive tree queries. -/
theorem rule_evaluate_congr (d₁ d₂ : RepositoryData)
    (hreadme : d₁.readmeText = d₂.readmeText)
    (hroot : d₁.rootEntryCount = d₂.rootEntryCount)
    (hdepth : d₁.maxNestingDepth = d₂.maxNestingDepth)
    (hsrc : hasRecognizedSourceDir d₁ = hasRecognizedSourceDir d₂)
    (hgit : gitignorePresent d₁ = gitignorePresent d₂)
    (hlic : fileNamedPresent d₁ licenseFileNames = fileNamedPresent d₂ licenseFileNames)
    (hdep : fileNamedPresent d₁ dependencyFileNames = fileNamedPresent d₂ dependencyFileNames)
    (htop : topLevelDirCount d₁ = topLevelDirCount d₂) :
    RuleEngine.evaluate d₁ = RuleEngine.evaluate d₂ := by
  have hne : readmeNonEmpty d₁ = readmeNonEmpty d₂ := by
    unfold readmeNonEmpty
    rw [hreadme]
  unfold RuleEngine.evaluate documentationScore documentationIssues
    structureScore structureScoreRaw structureIssues configurationScore
    configurationIssues completenessScore completenessCount completenessIssues
  rw [hreadme, hroot, hdepth, hsrc, hgit, hlic, hdep, htop, hne]

/-- C5: `RuleEngine.evaluate` is deterministic — two snapshots with
identical content give byte-identical results — and its output, issue
lists included, does not depend on the order of the file tree or of the
language map (any permutation of those collections leaves the result, and
hence the fixed rule-check-ordered issue lists, unchanged). -/
theorem rule_engine_deterministic (d₁ d₂ : RepositoryData)
    (hid : d₁.identity = d₂.identity)
    (hreadme : d₁.readmeText = d₂.readmeText)
    (htree : d₁.fileTree.Perm d₂.fileTree)
    (hroot : d₁.rootEntryCount = d₂.rootEntryCount)
    (hdepth : d₁.maxNestingDepth = d₂.maxNestingDepth)
    (hlang : d₁.detectedLanguages.Perm d₂.detectedLanguages) :
    RuleEngine.evaluate d₁ = RuleEngine.evaluate d₂ :=
  rule_evaluate_congr d₁ d₂ hreadme hroot hdepth
    (by unfold hasRecognizedSourceDir; exact perm_any_eq htree _)
    (by unfold gitignorePresent fileNamedPresent; exact perm_any_eq htree _)
    (by unfold fileNamedPresent; exact perm_any_eq htree _)
    (by unfold fileNamedPresent; exact perm_any_eq htree _)
    (by unfold topLevelDirCount; exact htree.countP_eq _)

/-- C5 witness: two snapshots whose file trees and language maps are
reversals of each other evaluate identically. -/
theorem rule_engine_deterministic_witness :
    RuleEngine.evaluate ⟨"id", none,
        [⟨["a".toList], false, 1⟩, ⟨["src".toList], true, 0⟩], 2, 1,
        [("Python", 10), ("TypeScript", 5)]⟩ =
      RuleEngine.evaluate ⟨"id", none,
        [⟨["src".toList], true, 0⟩, ⟨["a".toList], false, 1⟩], 2, 1,
        [("TypeScript", 5), ("Python", 10)]⟩ :=
  rule_engine_deterministic _ _ rfl rfl (by decide) rfl rfl (by decide)

/-! ## Claims about the evaluation cache and the pipeline coordinator -/

/-- A successful lookup leaves the rest of the cache strictly smaller: the
found entry is removed by the filter, so filtering costs at least one
element. -/
theorem find_filter_length {c : List CacheEntry} {id : String} {e : CacheEntry}
    (h : c.find? (fun x => x.identity == id) = some e) :
    (c.filter (fun x => !(x.identity == id))).length + 1 ≤ c.length := by
  induction c with
  | nil => simp at h
  | cons a t ih =>
    by_cases ha : (a.identity == id) = true
    · have hfle := List.length_filter_le (fun x => !(x.identity == id)) t
      simp [List.filter_cons, ha]
      omega
    · rw [List.find?_cons_of_neg _ (by simp [ha])] at h
      have := ih h
      simp [List.filter_cons, ha]
      omega

/-- C7: the cache never exceeds its maximum entry count; at capacity,
inserting a new distinct identity evicts exactly the least-recently-used
entry (the last in recency order), keeping every more-recently-used entry;
and an entry whose time-to-live has elapsed is never returned, regardless
of use. -/
theorem evaluation_cache_invariants (ttl maxEntries now : Nat) (id : String)
    (r : FinalReport) (c : List CacheEntry) :
    (0 < maxEntries → c.length ≤ maxEntries →
      (EvaluationCache.put maxEntries now id r c).length ≤ maxEntries) ∧
    ((EvaluationCache.get ttl now id c).2.length ≤ c.length) ∧
    (c.length = maxEntries → (∀ e ∈ c, e.identity ≠ id) →
      EvaluationCache.put maxEntries now id r c = ⟨id, r, now⟩ :: c.dropLast) ∧
    (∀ e, c.find? (fun x => x.identity == id) = some e →
      e.computedAt + ttl ≤ now → (EvaluationCache.get ttl now id c).1 = none) := by
  refine ⟨?_, ?_, ?_, ?_⟩
  · intro hpos hlen
    have hfle := List.length_filter_le (fun x => !(x.identity == id)) c
    simp only [EvaluationCache.put]
    split_ifs with hc
    · simp only [List.length_cons, List.length_dropLast]
      omega
    · simp only [List.length_cons]
      omega
  · unfold EvaluationCache.get
    cases hf : c.find? (fun e => e.identity == id) with
    | none => simp
    | some e =>
      dsimp only
      have h1 := find_filter_length hf
      have hfle := List.length_filter_le (fun x => !(x.identity == id)) c
      split_ifs with ht
      · dsimp only
        simp only [List.length_cons]
        omega
      · dsimp only
        omega
  · intro hlen hne
    have hfil : c.filter (fun x => !(x.identity == id)) = c := by
      apply List.filter_eq_self.mpr
      intro a ha
      simp only [Bool.not_eq_true', beq_eq_false_iff_ne]
      exact hne a ha
    simp only [EvaluationCache.put, hfil]
    rw [if_pos (le_of_eq hlen.symm)]
  · intro e hf ht
    unfold EvaluationCache.get
    rw [hf]
    dsimp only
    rw [if_neg (by omega)]

/-- A sample report for concrete cache scenarios. -/
def sampleReport : FinalReport := ⟨0, 0, 0, 0, 0, "", [], [], [], []⟩

/-- A sample cache entry with identity `"a"`. -/
def entryA : CacheEntry := ⟨"a", sampleReport, 0⟩

/-- A sample cache entry with identity `"b"`. -/
def entryB : CacheEntry := ⟨"b", sampleReport, 0⟩

/-- C7 witness: a cache of capacity 2 holding entries `a` (most recent)
and `b` (least recent) evicts exactly `b` on inserting `c`, and an entry
computed at time 0 with time-to-live 900 is gone at time 1000. -/
theorem evaluation_cache_invariants_witness :
    EvaluationCache.put 2 7 "c" sampleReport [entryA, entryB] =
      [⟨"c", sampleReport, 7⟩, entryA] ∧
    (EvaluationCache.get 900 1000 "a" [entryA]).1 = none :=
  ⟨(evaluation_cache_invariants 900 2 7 "c" sampleReport [entryA, entryB]).2.2.1
      (by decide) (by decide),
   (evaluation_cache_invariants 900 2 1000 "a" sampleReport [entryA]).2.2.2
      entryA (by decide) (by decide)⟩

/-- A hit on the most-recently-inserted entry of the cache: the lookup
returns its report. -/
theorem get_cons_hit (ttl now t : Nat) (id : String) (R : FinalReport)
    (rest : List CacheEntry) (h : now < t + ttl) :
    EvaluationCache.get ttl now id (⟨id, R, t⟩ :: rest) =
      (some R, ⟨id, R, t⟩ ::
        (⟨id, R, t⟩ :: rest).filter (fun x => !(x.identity == id))) := by
  unfold EvaluationCache.get
  rw [List.find?_cons_of_pos _ (by simp)]
  dsimp only
  rw [if_pos h]

/-- C6: evaluating a fresh identity and then evaluating it again within the
cache time-to-live returns the identical `FinalReport`, and the second run
is a cache hit that short-circuits the pipeline: neither RuleEngine nor
AIInsightOrchestrator is invoked (whatever result `ai₂` the orchestrator
would have produced). -/
theorem pipeline_cache_hit_idempotent
    (cfg : PipelineConfig) (cache : EvaluationCache) (d : RepositoryData)
    (now₁ now₂ : Nat) (ai₁ ai₂ : AIInsightResult)
    (hfresh : cache.entries.find? (fun e => e.identity == d.identity) = none)
    (horder : now₁ ≤ now₂) (httl : now₂ < now₁ + cfg.cacheTtlSeconds) :
    (PipelineCoordinator.run cfg
        (PipelineCoordinator.run cfg cache d now₁ ai₁).2.1 d now₂ ai₂).1 =
      (PipelineCoordinator.run cfg cache d now₁ ai₁).1 ∧
    (PipelineCoordinator.run cfg
        (PipelineCoordinator.run cfg cache d now₁ ai₁).2.1 d now₂ ai₂).2.2 = false := by
  have hget1 : EvaluationCache.get cfg.cacheTtlSeconds now₁ d.identity cache.entries
      = (none, cache.entries) := by
    unfold EvaluationCache.get
    rw [hfresh]
  set R := PipelineCoordinator.buildFinalReport cfg.weightRule
    (RuleEngine.evaluate d) ai₁ with hR
  have hrun1 : PipelineCoordinator.run cfg cache d now₁ ai₁ =
      (R, ⟨EvaluationCache.put cfg.cacheMaxEntries now₁ d.identity R cache.entries⟩,
       true) := by
    unfold PipelineCoordinator.run
    rw [hget1]
  have hput : EvaluationCache.put cfg.cacheMaxEntries now₁ d.identity R cache.entries =
      ⟨d.identity, R, now₁⟩ ::
        (if cfg.cacheMaxEntries ≤
            (cache.entries.filter (fun x => !(x.identity == d.identity))).length
         then (cache.entries.filter (fun x => !(x.identity == d.identity))).dropLast
         else cache.entries.filter (fun x => !(x.identity == d.identity))) := rfl
  have hget2 := get_cons_hit cfg.cacheTtlSeconds now₂ now₁ d.identity R
    (if cfg.cacheMaxEntries ≤
        (cache.entries.filter (fun x => !(x.identity == d.identity))).length
     then (cache.entries.filter (fun x => !(x.identity == d.identity))).dropLast
     else cache.entries.filter (fun x => !(x.identity == d.identity))) httl
  refine ⟨?_, ?_⟩ <;>
    · rw [hrun1]
      unfold PipelineCoordinator.run
      rw [hput, hget2]

/-- C6 witness: a concrete fresh identity evaluated at time 0 and again at
time 10 (within the 900 s default time-to-live) is served from the cache —
the second run invokes no engine. -/
theorem pipeline_cache_hit_idempotent_witness :
    (PipelineCoordinator.run defaultPipelineConfig
        (PipelineCoordinator.run defaultPipelineConfig ⟨[]⟩
          ⟨"repo", none, [], 0, 0, []⟩ 0
          ⟨InsightStatus.degraded, InsightStatus.degraded, InsightStatus.degraded⟩).2.1
        ⟨"repo", none, [], 0, 0, []⟩ 10
        ⟨InsightStatus.ok Judgment.good, InsightStatus.degraded,
         InsightStatus.degraded⟩).2.2 = false :=
  (pipeline_cache_hit_idempotent defaultPipelineConfig ⟨[]⟩
    ⟨"repo", none, [], 0, 0, []⟩ 0 10
    ⟨InsightStatus.degraded, InsightStatus.degraded, InsightStatus.degraded⟩
    ⟨InsightStatus.ok Judgment.good, InsightStatus.degraded, InsightStatus.degraded⟩
    rfl (by decide) (by decide)).2
